import Mathlib

/-!
Verification of the authentication-resolution and connection-lifecycle
logic of the `operator` package (`operator.go`).

The Go functions are shallowly embedded as pure Lean functions over an
`Oracle` that fixes the outcome of every external effect (file reads, key
parsing, agent socket dial, agent identity listing, terminal passphrase
read, SSH dial, the user callback, connection close).  Each embedded
function returns the Go error value together with a trace of the
observable events it performed, in order; resource-lifecycle and
"never prompts / never dials" properties are stated over that trace.
-/

namespace Operator

/-- Byte strings (Go `[]byte`) as lists of byte values. -/
def Bytes := List Nat
deriving DecidableEq, Repr

/-- Go `error` values as produced by this package: either a base error from
a library call, or `errors.Wrapf(inner, msg)` which prefixes a message. -/
inductive GoError where
  | base (msg : String)
  | wrap (msg : String) (inner : GoError)
deriving DecidableEq, Repr

/-- Go `err.Error()`: `pkg/errors` wrapping renders `msg ++ ": " ++ inner`. -/
def GoError.errString : GoError → String
  | .base m => m
  | .wrap m inner => m ++ ": " ++ inner.errString

/-- The exact error message `ssh.ParsePrivateKey` produces for a
passphrase-protected key, compared against at `operator.go:48`. -/
def passphraseProtectedMsg : String := "ssh: this private key is passphrase protected"

/-- `ssh.AuthMethod` values this package constructs:
`ssh.Password`, `ssh.PublicKeys(key)` for a parsed signer (identified by
the id the oracle assigned to it), or
`ssh.PublicKeysCallback(agent.NewClient(conn).Signers)`, which defers
signing to every identity the ambient agent offers. -/
inductive AuthMethod where
  | password (secret : String)
  | publicKeys (key : Nat)
  | agentSigners
deriving DecidableEq, Repr

/-- The host-key verification policy installed in an `ssh.ClientConfig`. -/
inductive HostKeyPolicy where
  | insecureIgnoreHostKey
  | verify
deriving DecidableEq, Repr

/-- The fields of `ssh.ClientConfig` this package sets. -/
structure ClientConfig where
  user : String
  auth : List AuthMethod
  hostKeyCallback : HostKeyPolicy
deriving DecidableEq, Repr

/-- Observable events, recorded in program order. -/
inductive Event where
  /-- `ioutil.ReadFile` on the given (pre-expansion) path. -/
  | readFile (path : String)
  /-- `net.Dial("unix", os.Getenv("SSH_AUTH_SOCK"))`. -/
  | agentDial
  /-- `sshAgent.List()`. -/
  | listIdentities
  /-- the passphrase prompt plus `terminal.ReadPassword`. -/
  | promptPassphrase
  /-- `NewSSHOperator(address, config)`: the dial to the target host. -/
  | targetDial (address : String) (config : ClientConfig)
  /-- `operator.Close()` on the main Connection. -/
  | connClose
  /-- `sshAgentConn.Close()` on an auxiliary agent-socket connection. -/
  | agentClose
deriving DecidableEq, Repr

/-- Outcomes of every external call the package makes, fixed up front so the
embedded functions are pure.  Parsed private keys and authorized keys are
identified by `Nat` ids chosen by the oracle. -/
structure Oracle where
  /-- `homedir.Expand` (its error is discarded at `operator.go:155`). -/
  expand : String → String
  /-- `ioutil.ReadFile` by (expanded) path. -/
  readFile : String → Except GoError Bytes
  /-- `ssh.ParsePrivateKey` on the key file bytes. -/
  parsePrivateKey : Bytes → Except GoError Nat
  /-- `ssh.ParsePrivateKeyWithPassphrase` on (key bytes, passphrase bytes). -/
  parsePrivateKeyWithPassphrase : Bytes → Bytes → Except GoError Nat
  /-- `net.Dial("unix", os.Getenv("SSH_AUTH_SOCK"))`. -/
  agentDial : Except GoError Unit
  /-- `sshAgent.List()`: the identities' key blobs, plus the error value
  (which the code discards at `operator.go:109`). -/
  agentList : List Bytes × Option GoError
  /-- `ssh.ParseAuthorizedKey` on the `.pub` file bytes. -/
  parseAuthorizedKey : Bytes → Except GoError Nat
  /-- `authkey.Marshal()`: re-serialize a parsed public key to binary form. -/
  marshal : Nat → Bytes
  /-- `terminal.ReadPassword`: the bytes read and the error value
  (which the code discards at `operator.go:60`). -/
  readPassword : Bytes × Option GoError
  /-- `NewSSHOperator(address, config)`. -/
  connect : String → ClientConfig → Except GoError Unit
  /-- the user callback's result on the operator handed to it. -/
  callbackResult : Option GoError
  /-- `operator.Close()`'s result (discarded by the deferred call). -/
  closeResult : Option GoError
  /-- `sshAgentConn.Close()`'s result (discarded by the deferred call). -/
  agentCloseResult : Option GoError

/-- `expandPath` (`operator.go:154`): expand `~`, discarding the error. -/
def expandPath (o : Oracle) (path : String) : String := o.expand path

/-- The closer returned by `privateKeyUsingSSHAgent`: either
`sshAgentConn.Close` or the no-op `func() error { return nil }`. -/
inductive Closer where
  | noop
  | closeAgentConn
deriving DecidableEq, Repr

/-- Events emitted when a `Closer` is invoked. -/
def Closer.events : Closer → List Event
  | .noop => []
  | .closeAgentConn => [Event.agentClose]

/-- `privateKeyUsingSSHAgent` (`operator.go:105-132`): probe the ambient
agent for an identity whose blob equals the re-serialized public key parsed
from the `.pub` companion file.  Returns the `AuthMethod` (if a match was
found), the closer the caller must defer, and the trace of the probe. -/
def privateKeyUsingSSHAgent (o : Oracle) (publicKeyPath : String) :
    Option AuthMethod × Closer × List Event :=
  match o.agentDial with
  | .error _ => (none, .noop, [Event.agentDial])
  | .ok _ =>
    let keys := o.agentList.1
    if keys.length = 0 then
      (none, .closeAgentConn, [Event.agentDial, Event.listIdentities])
    else
      match o.readFile (expandPath o publicKeyPath) with
      | .error _ =>
        (none, .closeAgentConn,
          [Event.agentDial, Event.listIdentities, Event.readFile publicKeyPath])
      | .ok pubkey =>
        match o.parseAuthorizedKey pubkey with
        | .error _ =>
          (none, .closeAgentConn,
            [Event.agentDial, Event.listIdentities, Event.readFile publicKeyPath])
        | .ok authkey =>
          let parsedkey := o.marshal authkey
          if keys.any (fun key => key = parsedkey) then
            (some .agentSigners, .closeAgentConn,
              [Event.agentDial, Event.listIdentities, Event.readFile publicKeyPath])
          else
            (none, .noop,
              [Event.agentDial, Event.listIdentities, Event.readFile publicKeyPath])

/-- `executeRemote` (`operator.go:134-152`): build the client config with
host-key verification disabled, dial `host:port`, hand the operator to the
callback, and close the connection via `defer` (its error discarded). -/
def executeRemote (o : Oracle) (host : String) (port : Nat) (user : String)
    (authMethod : AuthMethod) : Option GoError × List Event :=
  let config : ClientConfig := ⟨user, [authMethod], .insecureIgnoreHostKey⟩
  let address := host ++ ":" ++ toString port
  match o.connect address config with
  | .error e =>
    (some (.wrap ("unable to connect to " ++ address ++ " over ssh") e),
      [Event.targetDial address config])
  | .ok _ =>
    (o.callbackResult,
      [Event.targetDial address config, Event.connClose])

/-- `ExecuteRemoteWithPassword` (`operator.go:34-36`). -/
def ExecuteRemoteWithPassword (o : Oracle) (host : String) (port : Nat)
    (user : String) (password : String) : Option GoError × List Event :=
  executeRemote o host port user (.password password)

/-- `ExecuteRemoteWithPrivateKey` (`operator.go:38-74`): read and parse the
key file; on a passphrase-protected key, probe the agent and otherwise
prompt for the passphrase; then connect.  The `defer closeAgent()` runs
when the whole function returns, so its event comes last. -/
def ExecuteRemoteWithPrivateKey (o : Oracle) (host : String) (port : Nat)
    (user : String) (privateKey : String) : Option GoError × List Event :=
  match o.readFile (expandPath o privateKey) with
  | .error e =>
    (some (.wrap ("unable to parse private key: " ++ privateKey) e),
      [Event.readFile privateKey])
  | .ok buffer =>
    match o.parsePrivateKey buffer with
    | .ok key =>
      let r := executeRemote o host port user (.publicKeys key)
      (r.1, Event.readFile privateKey :: r.2)
    | .error err =>
      if err.errString ≠ passphraseProtectedMsg then
        (some (.wrap ("unable to parse private key: " ++ privateKey) err),
          [Event.readFile privateKey])
      else
        match privateKeyUsingSSHAgent o (privateKey ++ ".pub") with
        | (some m, closeAgent, probeTrace) =>
          let r := executeRemote o host port user m
          (r.1, Event.readFile privateKey :: probeTrace ++ r.2 ++ closeAgent.events)
        | (none, closeAgent, probeTrace) =>
          let bytePassword := o.readPassword.1
          match o.parsePrivateKeyWithPassphrase buffer bytePassword with
          | .error e2 =>
            (some (.wrap ("parse private key with passphrase failed: " ++ privateKey) e2),
              Event.readFile privateKey :: probeTrace
                ++ [Event.promptPassphrase] ++ closeAgent.events)
          | .ok key2 =>
            let r := executeRemote o host port user (.publicKeys key2)
            (r.1, Event.readFile privateKey :: probeTrace
                ++ [Event.promptPassphrase] ++ r.2 ++ closeAgent.events)

/-- `ExecuteRemote` (`operator.go:76-103`): dial the ambient agent socket;
on failure return a wrapped diagnostic immediately.  Otherwise defer the
agent-socket close, build a config whose sole `AuthMethod` defers signing
to every agent identity, dial the target, run the callback, and close the
connection.  Deferred calls run last-in-first-out: the main connection
closes before the agent socket. -/
def ExecuteRemote (o : Oracle) (host : String) (port : Nat) (user : String) :
    Option GoError × List Event :=
  match o.agentDial with
  | .error e =>
    (some (.wrap "unable to reach SSH Agent" e), [Event.agentDial])
  | .ok _ =>
    let config : ClientConfig := ⟨user, [.agentSigners], .insecureIgnoreHostKey⟩
    let address := host ++ ":" ++ toString port
    match o.connect address config with
    | .error e =>
      (some (.wrap ("unable to connect to " ++ address ++ " over ssh") e),
        [Event.agentDial, Event.targetDial address config, Event.agentClose])
    | .ok _ =>
      (o.callbackResult,
        [Event.agentDial, Event.targetDial address config,
          Event.connClose, Event.agentClose])

/-- Count the occurrences of an event in a trace. -/
def countEvent (tr : List Event) (e : Event) : Nat := tr.count e

/-- Is an event a dial to the target host? -/
def isTargetDial : Event → Bool
  | .targetDial _ _ => true
  | _ => false

/-- The client configs of every target-host dial in a trace. -/
def dialConfigs : List Event → List ClientConfig
  | [] => []
  | .targetDial _ c :: tr => c :: dialConfigs tr
  | .readFile _ :: tr => dialConfigs tr
  | .agentDial :: tr => dialConfigs tr
  | .listIdentities :: tr => dialConfigs tr
  | .promptPassphrase :: tr => dialConfigs tr
  | .connClose :: tr => dialConfigs tr
  | .agentClose :: tr => dialConfigs tr

/-- A dial to the target host occurs in the trace. -/
def dialAttempted (tr : List Event) : Prop :=
  ∃ a c, Event.targetDial a c ∈ tr

/-- The result of the interactive-passphrase continuation
(`operator.go:58-67` followed by `operator.go:73`), as a function of the
oracle only: prompt, re-parse with the bytes read, and either fail with the
wrapped parse error or connect with the re-parsed key. -/
def promptPathResult (o : Oracle) (host : String) (port : Nat) (user : String)
    (privateKey : String) (buffer : Bytes) : Option GoError :=
  match o.parsePrivateKeyWithPassphrase buffer o.readPassword.1 with
  | .error e2 =>
    some (.wrap ("parse private key with passphrase failed: " ++ privateKey) e2)
  | .ok key2 => (executeRemote o host port user (.publicKeys key2)).1

lemma dialConfigs_append (l1 l2 : List Event) :
    dialConfigs (l1 ++ l2) = dialConfigs l1 ++ dialConfigs l2 := by
  induction l1 with
  | nil => rfl
  | cons ev tr ih => cases ev <;> simp [dialConfigs, ih]

lemma probe_trace_mem (o : Oracle) (p : String) :
    ∀ ev ∈ (privateKeyUsingSSHAgent o p).2.2,
      ev = Event.agentDial ∨ ev = Event.listIdentities ∨ ev = Event.readFile p := by
  intro ev hev
  unfold privateKeyUsingSSHAgent at hev
  rcases hA : o.agentDial with eA | u
  · rw [hA] at hev; simp at hev; simp [hev]
  · rw [hA] at hev
    by_cases hL : o.agentList.1.length = 0
    · simp [hL] at hev; rcases hev with h | h <;> simp [h]
    · rcases hR : o.readFile (expandPath o p) with eR | pubkey
      · simp [hL, hR] at hev; rcases hev with h | h | h <;> simp [h]
      · rcases hK : o.parseAuthorizedKey pubkey with eK | ak
        · simp [hL, hR, hK] at hev; rcases hev with h | h | h <;> simp [h]
        · by_cases hM : (o.agentList.1.any fun key => key = o.marshal ak) = true
          · simp [hL, hR, hK, hM] at hev; rcases hev with h | h | h <;> simp [h]
          · simp [hL, hR, hK, hM] at hev; rcases hev with h | h | h <;> simp [h]

lemma probe_dialConfigs (o : Oracle) (p : String) :
    dialConfigs (privateKeyUsingSSHAgent o p).2.2 = [] := by
  have h := probe_trace_mem o p
  generalize hg : (privateKeyUsingSSHAgent o p).2.2 = tr at h
  clear hg
  induction tr with
  | nil => rfl
  | cons ev tr ih =>
    have hev := h ev (by simp)
    have htr : ∀ e ∈ tr, e = Event.agentDial ∨ e = Event.listIdentities ∨
        e = Event.readFile p := fun e he => h e (by simp [he])
    rcases hev with h1 | h1 | h1 <;> subst h1 <;> simp [dialConfigs, ih htr]

lemma probe_count_zero (o : Oracle) (p : String) (e : Event)
    (h1 : e ≠ Event.agentDial) (h2 : e ≠ Event.listIdentities)
    (h3 : e ≠ Event.readFile p) :
    (privateKeyUsingSSHAgent o p).2.2.count e = 0 := by
  refine List.count_eq_zero.mpr ?_
  intro hmem
  rcases probe_trace_mem o p e hmem with h | h | h
  · exact h1 h
  · exact h2 h
  · exact h3 h

lemma closer_count_zero (c : Closer) (e : Event) (h : e ≠ Event.agentClose) :
    c.events.count e = 0 := by
  cases c <;> simp [Closer.events, List.count_cons, h]

lemma closer_dialConfigs (c : Closer) : dialConfigs c.events = [] := by
  cases c <;> rfl

lemma executeRemote_ok (o : Oracle) (host : String) (port : Nat) (user : String)
    (m : AuthMethod)
    (hc : o.connect (host ++ ":" ++ toString port)
        ⟨user, [m], .insecureIgnoreHostKey⟩ = .ok ()) :
    executeRemote o host port user m =
      (o.callbackResult,
        [Event.targetDial (host ++ ":" ++ toString port)
          ⟨user, [m], .insecureIgnoreHostKey⟩, Event.connClose]) := by
  simp [executeRemote, hc]

lemma executeRemote_error (o : Oracle) (host : String) (port : Nat) (user : String)
    (m : AuthMethod) (e : GoError)
    (hc : o.connect (host ++ ":" ++ toString port)
        ⟨user, [m], .insecureIgnoreHostKey⟩ = .error e) :
    executeRemote o host port user m =
      (some (.wrap ("unable to connect to " ++ (host ++ ":" ++ toString port)
          ++ " over ssh") e),
        [Event.targetDial (host ++ ":" ++ toString port)
          ⟨user, [m], .insecureIgnoreHostKey⟩]) := by
  simp [executeRemote, hc]

lemma probe_no_targetDial (o : Oracle) (p : String) (a : String) (c : ClientConfig) :
    Event.targetDial a c ∉ (privateKeyUsingSSHAgent o p).2.2 := by
  intro h
  rcases probe_trace_mem o p _ h with h1 | h1 | h1 <;> simp at h1

lemma closer_no_targetDial (cl : Closer) (a : String) (c : ClientConfig) :
    Event.targetDial a c ∉ cl.events := by
  cases cl <;> simp [Closer.events]

lemma pk_read_error (o : Oracle) (host : String) (port : Nat) (user : String)
    (pk : String) (e : GoError)
    (hread : o.readFile (expandPath o pk) = .error e) :
    ExecuteRemoteWithPrivateKey o host port user pk =
      (some (.wrap ("unable to parse private key: " ++ pk) e),
        [Event.readFile pk]) := by
  simp [ExecuteRemoteWithPrivateKey, hread]

lemma pk_badparse (o : Oracle) (host : String) (port : Nat) (user : String)
    (pk : String) (buffer : Bytes) (err : GoError)
    (hread : o.readFile (expandPath o pk) = .ok buffer)
    (hparse : o.parsePrivateKey buffer = .error err)
    (hmsg : err.errString ≠ passphraseProtectedMsg) :
    ExecuteRemoteWithPrivateKey o host port user pk =
      (some (.wrap ("unable to parse private key: " ++ pk) err),
        [Event.readFile pk]) := by
  simp [ExecuteRemoteWithPrivateKey, hread, hparse, hmsg]

lemma pk_plain (o : Oracle) (host : String) (port : Nat) (user : String)
    (pk : String) (buffer : Bytes) (key : Nat)
    (hread : o.readFile (expandPath o pk) = .ok buffer)
    (hparse : o.parsePrivateKey buffer = .ok key) :
    ExecuteRemoteWithPrivateKey o host port user pk =
      ((executeRemote o host port user (.publicKeys key)).1,
        Event.readFile pk :: (executeRemote o host port user (.publicKeys key)).2) := by
  simp [ExecuteRemoteWithPrivateKey, hread, hparse]

lemma pk_protected_match (o : Oracle) (host : String) (port : Nat) (user : String)
    (pk : String) (buffer : Bytes) (err : GoError) (m : AuthMethod) (cl : Closer)
    (ptr : List Event)
    (hread : o.readFile (expandPath o pk) = .ok buffer)
    (hparse : o.parsePrivateKey buffer = .error err)
    (hmsg : err.errString = passphraseProtectedMsg)
    (hprobe : privateKeyUsingSSHAgent o (pk ++ ".pub") = (some m, cl, ptr)) :
    ExecuteRemoteWithPrivateKey o host port user pk =
      ((executeRemote o host port user m).1,
        Event.readFile pk :: ptr ++ (executeRemote o host port user m).2
          ++ cl.events) := by
  simp [ExecuteRemoteWithPrivateKey, hread, hparse, hmsg, hprobe]

lemma pk_protected_nomatch_fail (o : Oracle) (host : String) (port : Nat)
    (user : String) (pk : String) (buffer : Bytes) (err e2 : GoError) (cl : Closer)
    (ptr : List Event)
    (hread : o.readFile (expandPath o pk) = .ok buffer)
    (hparse : o.parsePrivateKey buffer = .error err)
    (hmsg : err.errString = passphraseProtectedMsg)
    (hprobe : privateKeyUsingSSHAgent o (pk ++ ".pub") = (none, cl, ptr))
    (hpp : o.parsePrivateKeyWithPassphrase buffer o.readPassword.1 = .error e2) :
    ExecuteRemoteWithPrivateKey o host port user pk =
      (some (.wrap ("parse private key with passphrase failed: " ++ pk) e2),
        Event.readFile pk :: ptr ++ [Event.promptPassphrase] ++ cl.events) := by
  simp [ExecuteRemoteWithPrivateKey, hread, hparse, hmsg, hprobe, hpp]

lemma pk_protected_nomatch_ok (o : Oracle) (host : String) (port : Nat)
    (user : String) (pk : String) (buffer : Bytes) (err : GoError) (key2 : Nat)
    (cl : Closer) (ptr : List Event)
    (hread : o.readFile (expandPath o pk) = .ok buffer)
    (hparse : o.parsePrivateKey buffer = .error err)
    (hmsg : err.errString = passphraseProtectedMsg)
    (hprobe : privateKeyUsingSSHAgent o (pk ++ ".pub") = (none, cl, ptr))
    (hpp : o.parsePrivateKeyWithPassphrase buffer o.readPassword.1 = .ok key2) :
    ExecuteRemoteWithPrivateKey o host port user pk =
      ((executeRemote o host port user (.publicKeys key2)).1,
        Event.readFile pk :: ptr ++ [Event.promptPassphrase]
          ++ (executeRemote o host port user (.publicKeys key2)).2
          ++ cl.events) := by
  simp [ExecuteRemoteWithPrivateKey, hread, hparse, hmsg, hprobe, hpp]

/-- C5: a private-key file that parses with no passphrase is wrapped
directly as the `AuthMethod`; resolution performs no agent contact and no
passphrase prompt. -/
theorem c5_unencrypted_key_no_agent_no_prompt (o : Oracle) (host : String)
    (port : Nat) (user : String) (pk : String) (buffer : Bytes) (key : Nat)
    (hread : o.readFile (expandPath o pk) = .ok buffer)
    (hparse : o.parsePrivateKey buffer = .ok key) :
    Event.agentDial ∉ (ExecuteRemoteWithPrivateKey o host port user pk).2 ∧
    Event.promptPassphrase ∉ (ExecuteRemoteWithPrivateKey o host port user pk).2 ∧
    ∀ c ∈ dialConfigs (ExecuteRemoteWithPrivateKey o host port user pk).2,
      c.auth = [AuthMethod.publicKeys key] := by
  rw [pk_plain o host port user pk buffer key hread hparse]
  rcases hc : o.connect (host ++ ":" ++ toString port)
      ⟨user, [.publicKeys key], .insecureIgnoreHostKey⟩ with e | u
  · rw [executeRemote_error o host port user _ e hc]
    simp [dialConfigs]
  · rw [executeRemote_ok o host port user _ hc]
    simp [dialConfigs]

/-- C5 witness. -/
theorem c5_witness :
    let o : Oracle :=
      { expand := fun s => s
        readFile := fun _ => .ok [1, 2]
        parsePrivateKey := fun _ => .ok 7
        parsePrivateKeyWithPassphrase := fun _ _ => .error (.base "unused")
        agentDial := .ok ()
        agentList := ([[9]], none)
        parseAuthorizedKey := fun _ => .ok 0
        marshal := fun _ => [9]
        readPassword := ([], none)
        connect := fun _ _ => .ok ()
        callbackResult := none
        closeResult := some (.base "close failed")
        agentCloseResult := none }
    Event.agentDial ∉ (ExecuteRemoteWithPrivateKey o "h" 22 "u" "id_rsa").2 ∧
    Event.promptPassphrase ∉ (ExecuteRemoteWithPrivateKey o "h" 22 "u" "id_rsa").2 ∧
    ∀ c ∈ dialConfigs (ExecuteRemoteWithPrivateKey o "h" 22 "u" "id_rsa").2,
      c.auth = [AuthMethod.publicKeys 7] :=
  c5_unencrypted_key_no_agent_no_prompt _ "h" 22 "u" "id_rsa" [1, 2] 7 rfl rfl

/-- C1: whenever a Connection was successfully opened (here: the SSH dial
succeeds and one is attempted), each remote orchestration call closes it
exactly once and returns the callback's own result — the discarded close
error (`Oracle.closeResult`) never takes its place. -/
theorem c1_close_once_and_callback_result (o : Oracle) (host : String)
    (port : Nat) (user : String) (password pk : String)
    (hconn : ∀ a c, o.connect a c = .ok ()) :
    ((ExecuteRemoteWithPassword o host port user password).2.count Event.connClose = 1
      ∧ (ExecuteRemoteWithPassword o host port user password).1 = o.callbackResult)
    ∧ (dialAttempted (ExecuteRemoteWithPrivateKey o host port user pk).2 →
        (ExecuteRemoteWithPrivateKey o host port user pk).2.count Event.connClose = 1
        ∧ (ExecuteRemoteWithPrivateKey o host port user pk).1 = o.callbackResult)
    ∧ (dialAttempted (ExecuteRemote o host port user).2 →
        (ExecuteRemote o host port user).2.count Event.connClose = 1
        ∧ (ExecuteRemote o host port user).1 = o.callbackResult) := by
  refine ⟨?_, ?_, ?_⟩
  · unfold ExecuteRemoteWithPassword
    rw [executeRemote_ok o host port user _ (hconn _ _)]
    simp [List.count_cons]
  · intro hd
    rcases hread : o.readFile (expandPath o pk) with e | buffer
    · rw [pk_read_error o host port user pk e hread] at hd
      rcases hd with ⟨a, c, hmem⟩; simp at hmem
    · rcases hparse : o.parsePrivateKey buffer with err | key
      · by_cases hmsg : err.errString = passphraseProtectedMsg
        · rcases hprobe : privateKeyUsingSSHAgent o (pk ++ ".pub") with ⟨mm, cl, ptr⟩
          have hptr0 : ptr.count Event.connClose = 0 := by
            have h := probe_count_zero o (pk ++ ".pub") Event.connClose
              (by simp) (by simp) (by simp)
            rw [hprobe] at h; simpa using h
          have hcl0 : cl.events.count Event.connClose = 0 :=
            closer_count_zero cl _ (by simp)
          rcases mm with _ | m
          · rcases hpp : o.parsePrivateKeyWithPassphrase buffer o.readPassword.1
                with e2 | key2
            · rw [pk_protected_nomatch_fail o host port user pk buffer err e2 cl ptr
                hread hparse hmsg hprobe hpp] at hd
              rcases hd with ⟨a, c, hmem⟩
              have hp := probe_no_targetDial o (pk ++ ".pub") a c
              rw [hprobe] at hp
              have hc := closer_no_targetDial cl a c
              simp at hmem
              rcases hmem with h | h
              · exact absurd (by simpa using h) hp
              · exact absurd h hc
            · rw [pk_protected_nomatch_ok o host port user pk buffer err key2 cl ptr
                hread hparse hmsg hprobe hpp]
              rw [executeRemote_ok o host port user _ (hconn _ _)]
              refine ⟨?_, rfl⟩
              simp [List.count_cons, List.count_append, hptr0, hcl0]
          · rw [pk_protected_match o host port user pk buffer err m cl ptr
              hread hparse hmsg hprobe]
            rw [executeRemote_ok o host port user _ (hconn _ _)]
            refine ⟨?_, rfl⟩
            simp [List.count_cons, List.count_append, hptr0, hcl0]
        · rw [pk_badparse o host port user pk buffer err hread hparse hmsg] at hd
          rcases hd with ⟨a, c, hmem⟩; simp at hmem
      · rw [pk_plain o host port user pk buffer key hread hparse,
          executeRemote_ok o host port user _ (hconn _ _)]
        simp [List.count_cons]
  · intro hd
    rcases hA : o.agentDial with e | u
    · unfold ExecuteRemote at hd
      rw [hA] at hd
      rcases hd with ⟨a, c, hmem⟩; simp at hmem
    · simp [ExecuteRemote, hA, hconn, List.count_cons]

/-- C1 witness: a concrete oracle whose dial always succeeds, whose close
returns an error, and whose callback fails — the callback error is returned
and the close happens once, on all three entry points. -/
theorem c1_witness :
    let o : Oracle :=
      { expand := fun s => s
        readFile := fun _ => .ok [1]
        parsePrivateKey := fun _ => .ok 4
        parsePrivateKeyWithPassphrase := fun _ _ => .ok 5
        agentDial := .ok ()
        agentList := ([], none)
        parseAuthorizedKey := fun _ => .ok 0
        marshal := fun _ => []
        readPassword := ([], none)
        connect := fun _ _ => .ok ()
        callbackResult := some (.base "callback failed")
        closeResult := some (.base "close failed")
        agentCloseResult := none }
    ((ExecuteRemoteWithPassword o "h" 22 "u" "pw").2.count Event.connClose = 1
      ∧ (ExecuteRemoteWithPassword o "h" 22 "u" "pw").1 = o.callbackResult)
    ∧ (dialAttempted (ExecuteRemoteWithPrivateKey o "h" 22 "u" "k").2 →
        (ExecuteRemoteWithPrivateKey o "h" 22 "u" "k").2.count Event.connClose = 1
        ∧ (ExecuteRemoteWithPrivateKey o "h" 22 "u" "k").1 = o.callbackResult)
    ∧ (dialAttempted (ExecuteRemote o "h" 22 "u").2 →
        (ExecuteRemote o "h" 22 "u").2.count Event.connClose = 1
        ∧ (ExecuteRemote o "h" 22 "u").1 = o.callbackResult) :=
  c1_close_once_and_callback_result _ "h" 22 "u" "pw" "k" (fun _ _ => rfl)

lemma probe_no_connClose (o : Oracle) (p : String) :
    Event.connClose ∉ (privateKeyUsingSSHAgent o p).2.2 := by
  intro h
  rcases probe_trace_mem o p _ h with h1 | h1 | h1 <;> simp at h1

lemma closer_no_connClose (cl : Closer) : Event.connClose ∉ cl.events := by
  cases cl <;> simp [Closer.events]

lemma executeRemote_dialConfigs (o : Oracle) (host : String) (port : Nat)
    (user : String) (m : AuthMethod) :
    dialConfigs (executeRemote o host port user m).2 =
      [⟨user, [m], .insecureIgnoreHostKey⟩] := by
  rcases hc : o.connect (host ++ ":" ++ toString port)
      ⟨user, [m], .insecureIgnoreHostKey⟩ with e | v <;>
    simp [executeRemote, hc, dialConfigs]

lemma pk_dialConfigs (o : Oracle) (host : String) (port : Nat) (user : String)
    (pk : String) :
    ∀ c ∈ dialConfigs (ExecuteRemoteWithPrivateKey o host port user pk).2,
      c.hostKeyCallback = .insecureIgnoreHostKey := by
  intro c hc
  rcases hread : o.readFile (expandPath o pk) with e | buffer
  · rw [pk_read_error o host port user pk e hread] at hc
    simp [dialConfigs] at hc
  · rcases hparse : o.parsePrivateKey buffer with err | key
    · by_cases hmsg : err.errString = passphraseProtectedMsg
      · rcases hprobe : privateKeyUsingSSHAgent o (pk ++ ".pub") with ⟨mm, cl, ptr⟩
        have hptr : dialConfigs ptr = [] := by
          have h := probe_dialConfigs o (pk ++ ".pub")
          rw [hprobe] at h; simpa using h
        rcases mm with _ | m
        · rcases hpp : o.parsePrivateKeyWithPassphrase buffer o.readPassword.1
              with e2 | key2
          · rw [pk_protected_nomatch_fail o host port user pk buffer err e2 cl ptr
              hread hparse hmsg hprobe hpp] at hc
            simp [dialConfigs, dialConfigs_append, hptr, closer_dialConfigs] at hc
          · rw [pk_protected_nomatch_ok o host port user pk buffer err key2 cl ptr
              hread hparse hmsg hprobe hpp] at hc
            simp [dialConfigs, dialConfigs_append, hptr, closer_dialConfigs,
              executeRemote_dialConfigs] at hc
            simp [hc]
        · rw [pk_protected_match o host port user pk buffer err m cl ptr
            hread hparse hmsg hprobe] at hc
          simp [dialConfigs, dialConfigs_append, hptr, closer_dialConfigs,
            executeRemote_dialConfigs] at hc
          simp [hc]
      · rw [pk_badparse o host port user pk buffer err hread hparse hmsg] at hc
        simp [dialConfigs] at hc
    · rw [pk_plain o host port user pk buffer key hread hparse] at hc
      simp [dialConfigs, executeRemote_dialConfigs] at hc
      simp [hc]

/-- C7: every connection establishment (all remote entry points) builds a
client config with host-key verification disabled; a failed dial returns an
error wrapped with the target `host:port` address and attempts no
Connection close — including `ExecuteRemote`'s inline dial-failure path
(its trace still carries the deferred agent-socket close, but no
Connection close) and the private-key entry point. -/
theorem c7_insecure_hostkey_and_wrapped_dial_error (o : Oracle) (host : String)
    (port : Nat) (user : String) (m : AuthMethod) (password pk : String) :
    (∀ c ∈ dialConfigs (executeRemote o host port user m).2,
      c.hostKeyCallback = .insecureIgnoreHostKey)
    ∧ (∀ c ∈ dialConfigs (ExecuteRemote o host port user).2,
      c.hostKeyCallback = .insecureIgnoreHostKey)
    ∧ (∀ c ∈ dialConfigs (ExecuteRemoteWithPassword o host port user password).2,
      c.hostKeyCallback = .insecureIgnoreHostKey)
    ∧ (∀ c ∈ dialConfigs (ExecuteRemoteWithPrivateKey o host port user pk).2,
      c.hostKeyCallback = .insecureIgnoreHostKey)
    ∧ (∀ e, o.connect (host ++ ":" ++ toString port)
          ⟨user, [m], .insecureIgnoreHostKey⟩ = .error e →
        executeRemote o host port user m =
          (some (.wrap ("unable to connect to " ++ (host ++ ":" ++ toString port)
              ++ " over ssh") e),
            [Event.targetDial (host ++ ":" ++ toString port)
              ⟨user, [m], .insecureIgnoreHostKey⟩])
        ∧ Event.connClose ∉ (executeRemote o host port user m).2)
    ∧ (∀ e, o.connect (host ++ ":" ++ toString port)
          ⟨user, [.password password], .insecureIgnoreHostKey⟩ = .error e →
        ExecuteRemoteWithPassword o host port user password =
          (some (.wrap ("unable to connect to " ++ (host ++ ":" ++ toString port)
              ++ " over ssh") e),
            [Event.targetDial (host ++ ":" ++ toString port)
              ⟨user, [.password password], .insecureIgnoreHostKey⟩])
        ∧ Event.connClose ∉
            (ExecuteRemoteWithPassword o host port user password).2)
    ∧ (∀ e, o.agentDial = .ok () →
        o.connect (host ++ ":" ++ toString port)
          ⟨user, [.agentSigners], .insecureIgnoreHostKey⟩ = .error e →
        ExecuteRemote o host port user =
          (some (.wrap ("unable to connect to " ++ (host ++ ":" ++ toString port)
              ++ " over ssh") e),
            [Event.agentDial,
              Event.targetDial (host ++ ":" ++ toString port)
                ⟨user, [.agentSigners], .insecureIgnoreHostKey⟩,
              Event.agentClose])
        ∧ Event.connClose ∉ (ExecuteRemote o host port user).2)
    ∧ (∀ efail, (∀ a c, o.connect a c = .error efail) →
        Event.connClose ∉ (ExecuteRemoteWithPrivateKey o host port user pk).2) := by
  refine ⟨?_, ?_, ?_, pk_dialConfigs o host port user pk, ?_, ?_, ?_, ?_⟩
  · intro c hc
    rw [executeRemote_dialConfigs] at hc
    simp at hc; simp [hc]
  · intro c hc
    rcases hA : o.agentDial with e | u
    · simp [ExecuteRemote, hA, dialConfigs] at hc
    · rcases hcon : o.connect (host ++ ":" ++ toString port)
          ⟨user, [.agentSigners], .insecureIgnoreHostKey⟩ with e | v <;>
        (simp [ExecuteRemote, hA, hcon, dialConfigs] at hc; simp [hc])
  · intro c hc
    unfold ExecuteRemoteWithPassword at hc
    rw [executeRemote_dialConfigs] at hc
    simp at hc; simp [hc]
  · intro e he
    rw [executeRemote_error o host port user m e he]
    simp
  · intro e he
    unfold ExecuteRemoteWithPassword
    rw [executeRemote_error o host port user _ e he]
    simp
  · intro e hA he
    have hr : ExecuteRemote o host port user =
        (some (.wrap ("unable to connect to " ++ (host ++ ":" ++ toString port)
            ++ " over ssh") e),
          [Event.agentDial,
            Event.targetDial (host ++ ":" ++ toString port)
              ⟨user, [.agentSigners], .insecureIgnoreHostKey⟩,
            Event.agentClose]) := by
      simp [ExecuteRemote, hA, he]
    refine ⟨hr, ?_⟩
    rw [hr]
    simp
  · intro efail hfail hmem
    rcases hread : o.readFile (expandPath o pk) with e | buffer
    · rw [pk_read_error o host port user pk e hread] at hmem
      simp at hmem
    · rcases hparse : o.parsePrivateKey buffer with err | key
      · by_cases hmsg : err.errString = passphraseProtectedMsg
        · rcases hprobe : privateKeyUsingSSHAgent o (pk ++ ".pub") with ⟨mm, cl, ptr⟩
          have hp : Event.connClose ∉ ptr := by
            intro h
            exact probe_no_connClose o (pk ++ ".pub") (by rw [hprobe]; exact h)
          rcases mm with _ | m2
          · rcases hpp : o.parsePrivateKeyWithPassphrase buffer o.readPassword.1
                with e2 | key2
            · rw [pk_protected_nomatch_fail o host port user pk buffer err e2 cl ptr
                hread hparse hmsg hprobe hpp] at hmem
              simp at hmem
              rcases hmem with h | h
              · exact hp h
              · exact closer_no_connClose cl h
            · rw [pk_protected_nomatch_ok o host port user pk buffer err key2 cl ptr
                hread hparse hmsg hprobe hpp,
                executeRemote_error o host port user _ efail (hfail _ _)] at hmem
              simp at hmem
              rcases hmem with h | h
              · exact hp h
              · exact closer_no_connClose cl h
          · rw [pk_protected_match o host port user pk buffer err m2 cl ptr
              hread hparse hmsg hprobe,
              executeRemote_error o host port user _ efail (hfail _ _)] at hmem
            simp at hmem
            rcases hmem with h | h
            · exact hp h
            · exact closer_no_connClose cl h
        · rw [pk_badparse o host port user pk buffer err hread hparse hmsg] at hmem
          simp at hmem
      · rw [pk_plain o host port user pk buffer key hread hparse,
          executeRemote_error o host port user _ efail (hfail _ _)] at hmem
        simp at hmem

/-- C7 witness: against an unreachable host, the password entry point fails
with the wrapped `host:port` error and no close; `ExecuteRemote`'s inline
dial failure does the same (closing only the agent socket); the private-key
entry point attempts no Connection close either. -/
theorem c7_witness :
    let o : Oracle :=
      { expand := fun s => s
        readFile := fun _ => .ok [1]
        parsePrivateKey := fun _ => .ok 4
        parsePrivateKeyWithPassphrase := fun _ _ => .ok 5
        agentDial := .ok ()
        agentList := ([], none)
        parseAuthorizedKey := fun _ => .ok 0
        marshal := fun _ => []
        readPassword := ([], none)
        connect := fun _ _ => .error (.base "dial tcp: connection refused")
        callbackResult := none
        closeResult := none
        agentCloseResult := none }
    (ExecuteRemoteWithPassword o "example.com" 2222 "u" "pw" =
        (some (.wrap "unable to connect to example.com:2222 over ssh"
            (.base "dial tcp: connection refused")),
          [Event.targetDial "example.com:2222"
            ⟨"u", [.password "pw"], .insecureIgnoreHostKey⟩])
      ∧ Event.connClose ∉
          (ExecuteRemoteWithPassword o "example.com" 2222 "u" "pw").2)
    ∧ (ExecuteRemote o "example.com" 2222 "u" =
        (some (.wrap "unable to connect to example.com:2222 over ssh"
            (.base "dial tcp: connection refused")),
          [Event.agentDial,
            Event.targetDial "example.com:2222"
              ⟨"u", [.agentSigners], .insecureIgnoreHostKey⟩,
            Event.agentClose])
      ∧ Event.connClose ∉ (ExecuteRemote o "example.com" 2222 "u").2)
    ∧ Event.connClose ∉
        (ExecuteRemoteWithPrivateKey o "example.com" 2222 "u" "id_rsa").2 := by
  intro o
  refine ⟨?_, ?_, ?_⟩
  · exact (c7_insecure_hostkey_and_wrapped_dial_error o "example.com" 2222 "u"
      (.password "pw") "pw" "id_rsa").2.2.2.2.2.1
      (.base "dial tcp: connection refused") rfl
  · exact (c7_insecure_hostkey_and_wrapped_dial_error o "example.com" 2222 "u"
      (.password "pw") "pw" "id_rsa").2.2.2.2.2.2.1
      (.base "dial tcp: connection refused") rfl rfl
  · exact (c7_insecure_hostkey_and_wrapped_dial_error o "example.com" 2222 "u"
      (.password "pw") "pw" "id_rsa").2.2.2.2.2.2.2
      (.base "dial tcp: connection refused") (fun _ _ => rfl)

/-- C8: if dialing the ambient agent socket fails, `ExecuteRemote` returns
the wrapped "unable to reach SSH Agent" error immediately and its trace
shows no dial to the target host; if it succeeds, every target dial uses
the single agent-delegated `AuthMethod` covering all agent identities. -/
theorem c8_agent_unreachable_or_all_signers (o : Oracle) (host : String)
    (port : Nat) (user : String) :
    (∀ e, o.agentDial = .error e →
      ExecuteRemote o host port user =
        (some (.wrap "unable to reach SSH Agent" e), [Event.agentDial])
      ∧ ¬ dialAttempted (ExecuteRemote o host port user).2)
    ∧ (o.agentDial = .ok () →
      ∀ c ∈ dialConfigs (ExecuteRemote o host port user).2,
        c.auth = [AuthMethod.agentSigners]) := by
  constructor
  · intro e he
    have hr : ExecuteRemote o host port user =
        (some (.wrap "unable to reach SSH Agent" e), [Event.agentDial]) := by
      simp [ExecuteRemote, he]
    refine ⟨hr, ?_⟩
    rw [hr]
    rintro ⟨a, c, hmem⟩
    simp at hmem
  · intro hA c hc
    rcases hcon : o.connect (host ++ ":" ++ toString port)
        ⟨user, [.agentSigners], .insecureIgnoreHostKey⟩ with e | v <;>
      (simp [ExecuteRemote, hA, hcon, dialConfigs] at hc; simp [hc])

/-- C8 witness: with the agent socket unreachable, the call fails with the
wrapped diagnostic and never dials the target; with it reachable, the dial
config delegates to all agent identities. -/
theorem c8_witness :
    let oFail : Oracle :=
      { expand := fun s => s
        readFile := fun _ => .ok [1]
        parsePrivateKey := fun _ => .ok 4
        parsePrivateKeyWithPassphrase := fun _ _ => .ok 5
        agentDial := .error (.base "dial unix: missing address")
        agentList := ([], none)
        parseAuthorizedKey := fun _ => .ok 0
        marshal := fun _ => []
        readPassword := ([], none)
        connect := fun _ _ => .ok ()
        callbackResult := none
        closeResult := none
        agentCloseResult := none }
    let oOk : Oracle := { oFail with agentDial := .ok () }
    (ExecuteRemote oFail "h" 22 "u" =
        (some (.wrap "unable to reach SSH Agent" (.base "dial unix: missing address")),
          [Event.agentDial])
      ∧ ¬ dialAttempted (ExecuteRemote oFail "h" 22 "u").2)
    ∧ (∀ c ∈ dialConfigs (ExecuteRemote oOk "h" 22 "u").2,
        c.auth = [AuthMethod.agentSigners]) :=
  ⟨(c8_agent_unreachable_or_all_signers _ "h" 22 "u").1
      (.base "dial unix: missing address") rfl,
    (c8_agent_unreachable_or_all_signers _ "h" 22 "u").2 rfl⟩

/-- C6: a parse failure other than "passphrase protected" returns the
wrapped parse error immediately; the trace is the single file read — no
agent probe, no prompt, no connection attempt. -/
theorem c6_other_parse_error_fatal (o : Oracle) (host : String) (port : Nat)
    (user : String) (pk : String) (buffer : Bytes) (err : GoError)
    (hread : o.readFile (expandPath o pk) = .ok buffer)
    (hparse : o.parsePrivateKey buffer = .error err)
    (hmsg : err.errString ≠ passphraseProtectedMsg) :
    ExecuteRemoteWithPrivateKey o host port user pk =
      (some (.wrap ("unable to parse private key: " ++ pk) err),
        [Event.readFile pk]) := by
  simp [ExecuteRemoteWithPrivateKey, hread, hparse, hmsg]

/-- C6 witness. -/
theorem c6_witness :
    let o : Oracle :=
      { expand := fun s => s
        readFile := fun _ => .ok [3]
        parsePrivateKey := fun _ => .error (.base "ssh: no key found")
        parsePrivateKeyWithPassphrase := fun _ _ => .ok 0
        agentDial := .ok ()
        agentList := ([], none)
        parseAuthorizedKey := fun _ => .ok 0
        marshal := fun _ => []
        readPassword := ([], none)
        connect := fun _ _ => .ok ()
        callbackResult := none
        closeResult := none
        agentCloseResult := none }
    ExecuteRemoteWithPrivateKey o "h" 22 "u" "id_rsa" =
      (some (.wrap "unable to parse private key: id_rsa" (.base "ssh: no key found")),
        [Event.readFile "id_rsa"]) :=
  c6_other_parse_error_fatal _ "h" 22 "u" "id_rsa" [3] (.base "ssh: no key found")
    rfl rfl (by decide)

lemma executeRemote_trace_mem (o : Oracle) (host : String) (port : Nat)
    (user : String) (m : AuthMethod) :
    ∀ ev ∈ (executeRemote o host port user m).2,
      (∃ a c, ev = Event.targetDial a c) ∨ ev = Event.connClose := by
  intro ev hev
  rcases hc : o.connect (host ++ ":" ++ toString port)
      ⟨user, [m], .insecureIgnoreHostKey⟩ with e | v <;>
    simp [executeRemote, hc] at hev
  · exact .inl ⟨_, _, hev⟩
  · rcases hev with h | h
    · exact .inl ⟨_, _, h⟩
    · exact .inr h

lemma executeRemote_no_prompt (o : Oracle) (host : String) (port : Nat)
    (user : String) (m : AuthMethod) :
    Event.promptPassphrase ∉ (executeRemote o host port user m).2 := by
  intro h
  rcases executeRemote_trace_mem o host port user m _ h with ⟨a, c, h1⟩ | h1 <;>
    simp at h1

lemma executeRemote_prompt_count (o : Oracle) (host : String) (port : Nat)
    (user : String) (m : AuthMethod) :
    (executeRemote o host port user m).2.count Event.promptPassphrase = 0 :=
  List.count_eq_zero.mpr (executeRemote_no_prompt o host port user m)

/-- C2: an encrypted key whose `.pub` counterpart matches a loaded agent
identity (byte-equal marshalled blob) resolves to agent-delegated signing
and never prompts for a passphrase. -/
theorem c2_agent_match_never_prompts (o : Oracle) (host : String) (port : Nat)
    (user : String) (pk : String) (buffer : Bytes) (err : GoError)
    (pubkey : Bytes) (ak : Nat)
    (hread : o.readFile (expandPath o pk) = .ok buffer)
    (hparse : o.parsePrivateKey buffer = .error err)
    (hmsg : err.errString = passphraseProtectedMsg)
    (hA : o.agentDial = .ok ())
    (hkeys : o.agentList.1 ≠ [])
    (hpub : o.readFile (expandPath o (pk ++ ".pub")) = .ok pubkey)
    (hak : o.parseAuthorizedKey pubkey = .ok ak)
    (hmatch : o.marshal ak ∈ o.agentList.1) :
    (privateKeyUsingSSHAgent o (pk ++ ".pub")).1 = some AuthMethod.agentSigners
    ∧ Event.promptPassphrase ∉ (ExecuteRemoteWithPrivateKey o host port user pk).2
    ∧ ∀ c ∈ dialConfigs (ExecuteRemoteWithPrivateKey o host port user pk).2,
        c.auth = [AuthMethod.agentSigners] := by
  have hlen : ¬ o.agentList.1.length = 0 := by
    simpa [List.length_eq_zero] using hkeys
  have hany : (o.agentList.1.any fun key => key = o.marshal ak) = true := by
    simp only [List.any_eq_true, decide_eq_true_eq]
    exact ⟨_, hmatch, rfl⟩
  have hprobe : privateKeyUsingSSHAgent o (pk ++ ".pub") =
      (some .agentSigners, .closeAgentConn,
        [Event.agentDial, Event.listIdentities, Event.readFile (pk ++ ".pub")]) := by
    simp [privateKeyUsingSSHAgent, hA, hlen, hpub, hak, hany]
  have hrun := pk_protected_match o host port user pk buffer err .agentSigners
    .closeAgentConn [Event.agentDial, Event.listIdentities,
      Event.readFile (pk ++ ".pub")] hread hparse hmsg hprobe
  refine ⟨by rw [hprobe], ?_, ?_⟩
  · rw [hrun]
    intro hmem
    simp [Closer.events] at hmem
    exact executeRemote_no_prompt o host port user _ hmem
  · intro c hc
    rw [hrun] at hc
    simp [dialConfigs, dialConfigs_append, closer_dialConfigs,
      executeRemote_dialConfigs] at hc
    simp [hc]

/-- C2 witness. -/
theorem c2_witness :
    let o : Oracle :=
      { expand := fun s => s
        readFile := fun _ => .ok [1]
        parsePrivateKey := fun _ => .error (.base passphraseProtectedMsg)
        parsePrivateKeyWithPassphrase := fun _ _ => .ok 9
        agentDial := .ok ()
        agentList := ([[5, 6]], none)
        parseAuthorizedKey := fun _ => .ok 3
        marshal := fun _ => [5, 6]
        readPassword := ([], none)
        connect := fun _ _ => .ok ()
        callbackResult := none
        closeResult := none
        agentCloseResult := none }
    (privateKeyUsingSSHAgent o "id_rsa.pub").1 = some AuthMethod.agentSigners
    ∧ Event.promptPassphrase ∉ (ExecuteRemoteWithPrivateKey o "h" 22 "u" "id_rsa").2
    ∧ ∀ c ∈ dialConfigs (ExecuteRemoteWithPrivateKey o "h" 22 "u" "id_rsa").2,
        c.auth = [AuthMethod.agentSigners] :=
  c2_agent_match_never_prompts _ "h" 22 "u" "id_rsa" [1]
    (.base passphraseProtectedMsg) [1] 3 rfl rfl (by decide) rfl (by decide)
    rfl rfl (by decide)

/-- C3: every probe failure — agent socket unreachable, no loaded
identities, unreadable `.pub`, or `.pub` parse failure — yields "no agent
match": the failure is not returned, the user is prompted exactly once, and
the call's result is exactly the interactive-passphrase continuation's
result (which mentions no probe outcome). -/
theorem c3_probe_failure_falls_through (o : Oracle) (host : String) (port : Nat)
    (user : String) (pk : String) (buffer : Bytes) (err : GoError)
    (hread : o.readFile (expandPath o pk) = .ok buffer)
    (hparse : o.parsePrivateKey buffer = .error err)
    (hmsg : err.errString = passphraseProtectedMsg)
    (hfail :
      (∃ e, o.agentDial = .error e)
      ∨ (o.agentDial = .ok () ∧ o.agentList.1 = [])
      ∨ (o.agentDial = .ok () ∧ o.agentList.1 ≠ []
          ∧ ∃ e, o.readFile (expandPath o (pk ++ ".pub")) = .error e)
      ∨ (o.agentDial = .ok () ∧ o.agentList.1 ≠ []
          ∧ ∃ pubkey, o.readFile (expandPath o (pk ++ ".pub")) = .ok pubkey
            ∧ ∃ e, o.parseAuthorizedKey pubkey = .error e)) :
    (privateKeyUsingSSHAgent o (pk ++ ".pub")).1 = none
    ∧ (ExecuteRemoteWithPrivateKey o host port user pk).2.count
        Event.promptPassphrase = 1
    ∧ (ExecuteRemoteWithPrivateKey o host port user pk).1
        = promptPathResult o host port user pk buffer := by
  have hnone : (privateKeyUsingSSHAgent o (pk ++ ".pub")).1 = none := by
    rcases hfail with ⟨e, he⟩ | ⟨hA, hemp⟩ | ⟨hA, hne, e, he⟩ |
        ⟨hA, hne, pubkey, hpub, e, he⟩
    · simp [privateKeyUsingSSHAgent, he]
    · simp [privateKeyUsingSSHAgent, hA, hemp]
    · have hlen : ¬ o.agentList.1.length = 0 := by
        simpa [List.length_eq_zero] using hne
      simp [privateKeyUsingSSHAgent, hA, hlen, he]
    · have hlen : ¬ o.agentList.1.length = 0 := by
        simpa [List.length_eq_zero] using hne
      simp [privateKeyUsingSSHAgent, hA, hlen, hpub, he]
  have hprobe : privateKeyUsingSSHAgent o (pk ++ ".pub")
      = (none, (privateKeyUsingSSHAgent o (pk ++ ".pub")).2.1,
          (privateKeyUsingSSHAgent o (pk ++ ".pub")).2.2) := by
    rw [← hnone]
  have hptr0 : (privateKeyUsingSSHAgent o (pk ++ ".pub")).2.2.count
      Event.promptPassphrase = 0 :=
    probe_count_zero o (pk ++ ".pub") _ (by simp) (by simp) (by simp)
  have hcl0 : (privateKeyUsingSSHAgent o (pk ++ ".pub")).2.1.events.count
      Event.promptPassphrase = 0 :=
    closer_count_zero _ _ (by simp)
  refine ⟨hnone, ?_⟩
  rcases hpp : o.parsePrivateKeyWithPassphrase buffer o.readPassword.1
      with e2 | key2
  · have hrun := pk_protected_nomatch_fail o host port user pk buffer err e2
      _ _ hread hparse hmsg hprobe hpp
    rw [hrun]
    refine ⟨?_, ?_⟩
    · simp [List.count_cons, List.count_append, hptr0, hcl0]
    · simp [promptPathResult, hpp]
  · have hrun := pk_protected_nomatch_ok o host port user pk buffer err key2
      _ _ hread hparse hmsg hprobe hpp
    rw [hrun]
    refine ⟨?_, ?_⟩
    · simp [List.count_cons, List.count_append, hptr0, hcl0,
        executeRemote_prompt_count]
    · simp [promptPathResult, hpp]

/-- C3 witness: agent socket unreachable; the probe error is swallowed, the
prompt happens once, and the result is the continuation's result. -/
theorem c3_witness :
    let o : Oracle :=
      { expand := fun s => s
        readFile := fun _ => .ok [1]
        parsePrivateKey := fun _ => .error (.base passphraseProtectedMsg)
        parsePrivateKeyWithPassphrase := fun _ _ => .ok 9
        agentDial := .error (.base "dial unix: no such file")
        agentList := ([], none)
        parseAuthorizedKey := fun _ => .ok 3
        marshal := fun _ => [5]
        readPassword := ([112], none)
        connect := fun _ _ => .ok ()
        callbackResult := none
        closeResult := none
        agentCloseResult := none }
    (privateKeyUsingSSHAgent o "id_rsa.pub").1 = none
    ∧ (ExecuteRemoteWithPrivateKey o "h" 22 "u" "id_rsa").2.count
        Event.promptPassphrase = 1
    ∧ (ExecuteRemoteWithPrivateKey o "h" 22 "u" "id_rsa").1
        = promptPathResult o "h" 22 "u" "id_rsa" [1] :=
  c3_probe_failure_falls_through _ "h" 22 "u" "id_rsa" [1]
    (.base passphraseProtectedMsg) rfl rfl (by decide)
    (.inl ⟨.base "dial unix: no such file", rfl⟩)

/-- C4: with an encrypted key and no agent match, the user is prompted
exactly once; a failing re-parse (wrong passphrase) returns the fatal
wrapped parse error, with no second prompt. -/
theorem c4_wrong_passphrase_fatal_one_prompt (o : Oracle) (host : String)
    (port : Nat) (user : String) (pk : String) (buffer : Bytes) (err e2 : GoError)
    (hread : o.readFile (expandPath o pk) = .ok buffer)
    (hparse : o.parsePrivateKey buffer = .error err)
    (hmsg : err.errString = passphraseProtectedMsg)
    (hnone : (privateKeyUsingSSHAgent o (pk ++ ".pub")).1 = none)
    (hpp : o.parsePrivateKeyWithPassphrase buffer o.readPassword.1 = .error e2) :
    (ExecuteRemoteWithPrivateKey o host port user pk).1
        = some (.wrap ("parse private key with passphrase failed: " ++ pk) e2)
    ∧ (ExecuteRemoteWithPrivateKey o host port user pk).2.count
        Event.promptPassphrase = 1 := by
  have hprobe : privateKeyUsingSSHAgent o (pk ++ ".pub")
      = (none, (privateKeyUsingSSHAgent o (pk ++ ".pub")).2.1,
          (privateKeyUsingSSHAgent o (pk ++ ".pub")).2.2) := by
    rw [← hnone]
  have hptr0 : (privateKeyUsingSSHAgent o (pk ++ ".pub")).2.2.count
      Event.promptPassphrase = 0 :=
    probe_count_zero o (pk ++ ".pub") _ (by simp) (by simp) (by simp)
  have hcl0 : (privateKeyUsingSSHAgent o (pk ++ ".pub")).2.1.events.count
      Event.promptPassphrase = 0 :=
    closer_count_zero _ _ (by simp)
  have hrun := pk_protected_nomatch_fail o host port user pk buffer err e2
    _ _ hread hparse hmsg hprobe hpp
  rw [hrun]
  exact ⟨rfl, by simp [List.count_cons, List.count_append, hptr0, hcl0]⟩

/-- C4 witness: agent reachable but with no loaded identities, wrong
passphrase entered. -/
theorem c4_witness :
    let o : Oracle :=
      { expand := fun s => s
        readFile := fun _ => .ok [1]
        parsePrivateKey := fun _ => .error (.base passphraseProtectedMsg)
        parsePrivateKeyWithPassphrase := fun _ _ =>
          .error (.base "x509: decryption password incorrect")
        agentDial := .ok ()
        agentList := ([], none)
        parseAuthorizedKey := fun _ => .ok 3
        marshal := fun _ => [5]
        readPassword := ([119], none)
        connect := fun _ _ => .ok ()
        callbackResult := none
        closeResult := none
        agentCloseResult := none }
    (ExecuteRemoteWithPrivateKey o "h" 22 "u" "id_rsa").1
        = some (.wrap "parse private key with passphrase failed: id_rsa"
            (.base "x509: decryption password incorrect"))
    ∧ (ExecuteRemoteWithPrivateKey o "h" 22 "u" "id_rsa").2.count
        Event.promptPassphrase = 1 :=
  c4_wrong_passphrase_fatal_one_prompt _ "h" 22 "u" "id_rsa" [1]
    (.base passphraseProtectedMsg) (.base "x509: decryption password incorrect")
    rfl rfl (by decide) rfl rfl

/-- An oracle on which the agent probe runs to completion with identities
loaded, a readable and parseable `.pub` file, and no blob match: the agent
offers blob `[1, 2]` while the `.pub` file marshals to `[3, 4]`. -/
def leakProbeOracle : Oracle :=
  { expand := fun s => s
    readFile := fun _ => .ok [7]
    parsePrivateKey := fun _ => .error (.base passphraseProtectedMsg)
    parsePrivateKeyWithPassphrase := fun _ _ =>
      .error (.base "ssh: incorrect passphrase supplied to decrypt private key")
    agentDial := .ok ()
    agentList := ([[1, 2]], none)
    parseAuthorizedKey := fun _ => .ok 0
    marshal := fun _ => [3, 4]
    readPassword := ([], none)
    connect := fun _ _ => .ok ()
    callbackResult := none
    closeResult := none
    agentCloseResult := none }

/-- C9 evaluated at the failing input: when identities are listed but none
matches, `privateKeyUsingSSHAgent` returns the no-op closer instead of
`sshAgentConn.Close`, so the auxiliary agent-socket connection opened for
the probe (the `agentDial` in the trace) is never closed — no `agentClose`
ever appears in the call's trace. -/
theorem c9_no_match_leaks_agent_socket :
    privateKeyUsingSSHAgent leakProbeOracle "id_rsa.pub"
      = (none, Closer.noop,
          [Event.agentDial, Event.listIdentities, Event.readFile "id_rsa.pub"])
    ∧ Event.agentDial ∈
        (ExecuteRemoteWithPrivateKey leakProbeOracle "h" 22 "u" "id_rsa").2
    ∧ Event.agentClose ∉
        (ExecuteRemoteWithPrivateKey leakProbeOracle "h" 22 "u" "id_rsa").2 := by
  refine ⟨by decide, by decide, by decide⟩

/-- C10: the terminal-read error from the passphrase prompt is discarded:
the call's outcome is independent of it, and a failing re-parse surfaces
only as the wrapped "parse private key with passphrase failed" error. -/
theorem c10_terminal_read_error_discarded (o : Oracle) (host : String)
    (port : Nat) (user : String) (pk : String) (buffer : Bytes) (err : GoError)
    (hread : o.readFile (expandPath o pk) = .ok buffer)
    (hparse : o.parsePrivateKey buffer = .error err)
    (hmsg : err.errString = passphraseProtectedMsg)
    (hnone : (privateKeyUsingSSHAgent o (pk ++ ".pub")).1 = none) :
    (∀ e e' : Option GoError,
      ExecuteRemoteWithPrivateKey { o with readPassword := (o.readPassword.1, e) }
          host port user pk
        = ExecuteRemoteWithPrivateKey { o with readPassword := (o.readPassword.1, e') }
            host port user pk)
    ∧ (∀ e2, o.parsePrivateKeyWithPassphrase buffer o.readPassword.1 = .error e2 →
        (ExecuteRemoteWithPrivateKey o host port user pk).1
          = some (.wrap ("parse private key with passphrase failed: " ++ pk) e2)) := by
  constructor
  · intro e e'
    rfl
  · intro e2 hpp
    have hprobe : privateKeyUsingSSHAgent o (pk ++ ".pub")
        = (none, (privateKeyUsingSSHAgent o (pk ++ ".pub")).2.1,
            (privateKeyUsingSSHAgent o (pk ++ ".pub")).2.2) := by
      rw [← hnone]
    have hrun := pk_protected_nomatch_fail o host port user pk buffer err e2
      _ _ hread hparse hmsg hprobe hpp
    rw [hrun]

/-- C10 witness: the read error is `some` on one side and `none` on the
other, with identical outcomes, and the failing re-parse surfaces as the
wrapped parse error. -/
theorem c10_witness :
    let o : Oracle :=
      { expand := fun s => s
        readFile := fun _ => .ok [1]
        parsePrivateKey := fun _ => .error (.base passphraseProtectedMsg)
        parsePrivateKeyWithPassphrase := fun _ _ =>
          .error (.base "ssh: empty passphrase")
        agentDial := .error (.base "dial unix: connect refused")
        agentList := ([], none)
        parseAuthorizedKey := fun _ => .ok 3
        marshal := fun _ => [5]
        readPassword := ([], some (.base "inappropriate ioctl for device"))
        connect := fun _ _ => .ok ()
        callbackResult := none
        closeResult := none
        agentCloseResult := none }
    (ExecuteRemoteWithPrivateKey
        { o with readPassword := (o.readPassword.1,
            some (.base "inappropriate ioctl for device")) } "h" 22 "u" "id_rsa"
      = ExecuteRemoteWithPrivateKey
          { o with readPassword := (o.readPassword.1, none) } "h" 22 "u" "id_rsa")
    ∧ (ExecuteRemoteWithPrivateKey o "h" 22 "u" "id_rsa").1
        = some (.wrap "parse private key with passphrase failed: id_rsa"
            (.base "ssh: empty passphrase")) :=
  by
  intro o
  exact ⟨(c10_terminal_read_error_discarded o "h" 22 "u" "id_rsa" [1]
      (.base passphraseProtectedMsg) rfl rfl (by decide) rfl).1
      (some (.base "inappropriate ioctl for device")) none,
    (c10_terminal_read_error_discarded o "h" 22 "u" "id_rsa" [1]
      (.base passphraseProtectedMsg) rfl rfl (by decide) rfl).2
      (.base "ssh: empty passphrase") rfl⟩

end Operator
